import Mathlib

/-!
# Health-check probe extraction (`config_to_probe.go`)

A shallow embedding of `internal/manifests/collector/adapters/config_to_probe.go`:
the validation chain of `ConfigToContainerProbe` over a decoded, untyped
configuration document, and the extraction of the probe path and port from the
selected health-check extension.

Go's `map[interface{}]interface{}` is embedded as an association list from
scalar keys to dynamic values, read with a first-match lookup; the theorems
hold for every such list, in particular for those without repeated keys, which
are exactly the Go maps.
-/

namespace Adapters

/-! ## Dynamic values -/

/-- Keys of a decoded mapping: the hashable scalars a decoded document can
carry as `interface{}` map keys. -/
inductive Key where
  | str (s : String)
  | int (i : Int)
  | bool (b : Bool)
  | null
  deriving DecidableEq, Repr

/-- Values of dynamic type (`interface{}`) in a decoded document. `float` keeps
the bit pattern of a floating-point scalar; the code never inspects it. -/
inductive Value where
  | null
  | bool (b : Bool)
  | int (i : Int)
  | float (bits : Nat)
  | str (s : String)
  | seq (xs : List Value)
  | map (kvs : List (Key × Value))

/-- The Go type `map[interface{}]interface{}`. -/
abbrev Mapping := List (Key × Value)

/-- The comma-ok map read `v, ok := m[k]`: `some v` when `k` is a key of `m`. -/
def lookup (k : Key) : Mapping → Option Value
  | [] => none
  | (k', v) :: rest => if k' = k then some v else lookup k rest

/-- The single-value map read `m[k]`: the nil interface when `k` is absent. -/
def index (m : Mapping) (k : Key) : Value :=
  match lookup k m with
  | some v => v
  | none => Value.null

/-- The type assertion `v.(map[interface{}]interface{})`. -/
def asMap : Value → Option Mapping
  | Value.map kvs => some kvs
  | _ => none

/-- The type assertion `v.([]interface{})`. -/
def asSlice : Value → Option (List Value)
  | Value.seq xs => some xs
  | _ => none

/-- The type assertion `v.(string)`. -/
def asString : Value → Option String
  | Value.str s => some s
  | _ => none

/-! ## Library functions used by the code -/

/-- The function `strings.HasPrefix`, on the characters of the two strings. -/
def hasPrefix (s p : String) : Bool :=
  p.data.isPrefixOf s.data

/-- The pieces of a character list between the occurrences of `:`, the
accumulator `cur` holding the piece being read (in order). -/
def splitColonAux : List Char → List Char → List (List Char)
  | [], cur => [cur]
  | c :: cs, cur =>
    if c = ':' then cur :: splitColonAux cs [] else splitColonAux cs (cur ++ [c])

/-- The call `strings.Split(s, ":")`. -/
def splitColon (s : String) : List String :=
  (splitColonAux s.data []).map String.mk

/-- The type `intstr.IntOrString`: a numeric port or a named port. -/
inductive IntOrString where
  | int (v : Int)
  | str (s : String)
  deriving DecidableEq, Repr

/-- Decimal value of a list of digits read after the value `acc`; `none` when a
character is not a decimal digit. -/
def parseDigits : List Char → Nat → Option Nat
  | [], acc => some acc
  | c :: cs, acc =>
    if '0' ≤ c ∧ c ≤ '9' then parseDigits cs (acc * 10 + (c.toNat - 48)) else none

/-- The decimal integer a token spells: an optional sign followed by at least
one decimal digit. Any other token spells none. -/
def decimalInteger (s : String) : Option Int :=
  let signed : Bool × List Char :=
    match s.data with
    | '-' :: cs => (true, cs)
    | '+' :: cs => (false, cs)
    | cs => (false, cs)
  match signed with
  | (_, []) => none
  | (neg, cs) =>
    match parseDigits cs 0 with
    | none => none
    | some n => some (if neg then -(n : Int) else (n : Int))

/-- The conversion `int32(i)`. -/
def toInt32 (i : Int) : Int :=
  (i + 2 ^ 31) % 2 ^ 32 - 2 ^ 31

/-- Modelled from the spec: the int-or-string port parser `intstr.Parse` of the
Kubernetes API machinery, which is not part of this repository. It accepts a
decimal number, giving a numeric port, or any other token, giving a named
port. The numeric port of `intstr.IntOrString` is a 32-bit integer: a token
that spells a decimal integer outside that range is not accepted as a number
and gives the named port. -/
def intstrParse (val : String) : IntOrString :=
  match decimalInteger val with
  | some i =>
    if -(2 : Int) ^ 31 ≤ i ∧ i < (2 : Int) ^ 31 then IntOrString.int i
    else IntOrString.str val
  | none => IntOrString.str val

/-- The function `intstr.FromInt`. -/
def intstrFromInt (v : Int) : IntOrString :=
  IntOrString.int (toInt32 v)

/-! ## Errors and results -/

/-- The sentinel errors of the package. -/
inductive Err where
  | errNoService
  | errNoExtensions
  | errServiceNotAMap
  | errExtensionsNotAMap
  | errNoExtensionHealthCheck
  | ErrNoServiceExtensions
  | errServiceExtensionsNotSlice
  | ErrNoServiceExtensionHealthCheck
  deriving DecidableEq, Repr

/-- The internal pair `probeConfiguration`. -/
structure probeConfiguration where
  path : String
  port : IntOrString
  deriving DecidableEq, Repr

/-- The type `corev1.HTTPGetAction`, with the fields the code sets. -/
structure HTTPGetAction where
  Path : String
  Port : IntOrString
  deriving DecidableEq, Repr

/-- The type `corev1.ProbeHandler`, with the handler the code sets. -/
structure ProbeHandler where
  HTTPGet : Option HTTPGetAction
  deriving DecidableEq, Repr

/-- The type `corev1.Probe`. -/
structure Probe where
  Handler : ProbeHandler
  deriving DecidableEq, Repr

def defaultHealthCheckPath : String := "/"

def defaultHealthCheckV2Path : String := "/health/status"

def defaultHealthCheckPort : Int := 13133

/-! ## The probe synthesizer -/

def defaultHealthCheckEndpoint : IntOrString :=
  intstrFromInt defaultHealthCheckPort

def defaultProbeConfiguration (name : String) : probeConfiguration :=
  let path :=
    if hasPrefix name "healthcheckv2" then defaultHealthCheckV2Path
    else defaultHealthCheckPath
  { path := path, port := intstrFromInt defaultHealthCheckPort }

def extractPathFromExtensionConfig (name : String) (cfg : Mapping) : String :=
  if hasPrefix name "healthcheckv2" then
    match asMap (index cfg (Key.str "http")) with
    | some http =>
      match asMap (index http (Key.str "status")) with
      | some status =>
        match lookup (Key.str "path") status with
        | some path =>
          match asString path with
          | some parsedPath => parsedPath
          | none => defaultHealthCheckV2Path
        | none => defaultHealthCheckV2Path
      | none => defaultHealthCheckV2Path
    | none => defaultHealthCheckV2Path
  else
    match lookup (Key.str "path") cfg with
    | some path =>
      match asString path with
      | some parsedPath => parsedPath
      | none => defaultHealthCheckPath
    | none => defaultHealthCheckPath

/-- The tail of `extractPortFromExtensionConfig`, from the type assertion of
the endpoint on. -/
def portOfEndpoint (endpoint : Value) : IntOrString :=
  match asString endpoint with
  | none => defaultHealthCheckEndpoint
  | some parsedEndpoint =>
    match splitColon parsedEndpoint with
    | [_, port] => intstrParse port
    | _ => defaultHealthCheckEndpoint

def extractPortFromExtensionConfig (name : String) (cfg : Mapping) : IntOrString :=
  if hasPrefix name "healthcheckv2" then
    match asMap (index cfg (Key.str "http")) with
    | some http =>
      match lookup (Key.str "endpoint") http with
      | none => defaultHealthCheckEndpoint
      | some ep => portOfEndpoint ep
    | none => portOfEndpoint Value.null
  else
    match lookup (Key.str "endpoint") cfg with
    | none => defaultHealthCheckEndpoint
    | some ep => portOfEndpoint ep

def extractProbeConfigurationFromExtension (name : String) (ext : Value) :
    probeConfiguration :=
  match asMap ext with
  | none => defaultProbeConfiguration name
  | some extensionCfg =>
    { path := extractPathFromExtensionConfig name extensionCfg,
      port := extractPortFromExtensionConfig name extensionCfg }

def createProbeFromExtension (name : String) (extension : Value) : Except Err Probe :=
  let probeCfg := extractProbeConfigurationFromExtension name extension
  Except.ok { Handler := { HTTPGet := some { Path := probeCfg.path, Port := probeCfg.port } } }

/-! ## The validation chain -/

/-- The test of the first loop of `ConfigToContainerProbe` on one entry: the
entry is a string with one of the two recognised prefixes. -/
def isHealthCheckName (parsedExt : String) : Bool :=
  hasPrefix parsedExt "health_check" || hasPrefix parsedExt "healthcheckv2"

/-- The first loop of `ConfigToContainerProbe`: the entries of the service
extensions that are health-check names, in order. -/
def healthCheckServiceExtensions : List Value → List String
  | [] => []
  | ext :: rest =>
    match asString ext with
    | some parsedExt =>
      if isHealthCheckName parsedExt then parsedExt :: healthCheckServiceExtensions rest
      else healthCheckServiceExtensions rest
    | none => healthCheckServiceExtensions rest

/-- The second loop of `ConfigToContainerProbe` and the return after it. -/
def probeOfFirstDefined (extensions : Mapping) : List String → Except Err Probe
  | [] => Except.error Err.errNoExtensionHealthCheck
  | healthCheckForProbe :: rest =>
    match lookup (Key.str healthCheckForProbe) extensions with
    | some healthCheckExtension =>
      createProbeFromExtension healthCheckForProbe healthCheckExtension
    | none => probeOfFirstDefined extensions rest

def ConfigToContainerProbe (config : Mapping) : Except Err Probe :=
  match lookup (Key.str "service") config with
  | none => Except.error Err.errNoService
  | some serviceProperty =>
    match asMap serviceProperty with
    | none => Except.error Err.errServiceNotAMap
    | some service =>
      match lookup (Key.str "extensions") service with
      | none => Except.error Err.ErrNoServiceExtensions
      | some serviceExtensionsProperty =>
        match asSlice serviceExtensionsProperty with
        | none => Except.error Err.errServiceExtensionsNotSlice
        | some serviceExtensions =>
          let names := healthCheckServiceExtensions serviceExtensions
          if names.length = 0 then Except.error Err.ErrNoServiceExtensionHealthCheck
          else
            match lookup (Key.str "extensions") config with
            | none => Except.error Err.errNoExtensions
            | some extensionsProperty =>
              match asMap extensionsProperty with
              | none => Except.error Err.errExtensionsNotAMap
              | some extensions => probeOfFirstDefined extensions names

/-- The probe with an HTTP-get handler on the given path and port. -/
def httpGetProbe (c : probeConfiguration) : Probe :=
  { Handler := { HTTPGet := some { Path := c.path, Port := c.port } } }

/-- The names one entry of the service extensions contributes to the
candidates: itself when it is a health-check name, nothing otherwise. -/
def candidateOf (ext : Value) : List String :=
  match asString ext with
  | some parsedExt => if isHealthCheckName parsedExt then [parsedExt] else []
  | none => []

/-! ## The locations the synthesizer reads -/

/-- The value at the endpoint location of the variant, as the specification
names it: `endpoint` for a name without the prefix `healthcheckv2`, and
`http.endpoint`, with `http` a mapping, for a name with it. -/
def endpointLocation (name : String) (cfg : Mapping) : Option Value :=
  if hasPrefix name "healthcheckv2" then
    match lookup (Key.str "http") cfg with
    | some (Value.map http) => lookup (Key.str "endpoint") http
    | _ => none
  else lookup (Key.str "endpoint") cfg

/-- The value at the path location of the variant, as the specification names
it: `path` for a name without the prefix `healthcheckv2`, and
`http.status.path`, with `http` and `status` mappings, for a name with it. -/
def pathLocation (name : String) (cfg : Mapping) : Option Value :=
  if hasPrefix name "healthcheckv2" then
    match lookup (Key.str "http") cfg with
    | some (Value.map http) =>
      match lookup (Key.str "status") http with
      | some (Value.map status) => lookup (Key.str "path") status
      | _ => none
    | _ => none
  else lookup (Key.str "path") cfg

/-- The default pair of the variant a name selects. -/
def variantDefaults (name : String) : probeConfiguration :=
  if hasPrefix name "healthcheckv2" then
    { path := "/health/status", port := IntOrString.int 13133 }
  else { path := "/", port := IntOrString.int 13133 }

/-! ## Sample documents -/

def sampleV1Cfg : Mapping :=
  [(Key.str "path", Value.str "/live"), (Key.str "endpoint", Value.str "0.0.0.0:8080")]

/-- A document whose service lists `health_check/a` then `health_check/b`, only
the second being defined under the top-level `extensions`. -/
def sampleSkipDoc : Mapping :=
  [(Key.str "service",
      Value.map [(Key.str "extensions",
        Value.seq [Value.str "health_check/a", Value.str "health_check/b"])]),
   (Key.str "extensions",
      Value.map [(Key.str "health_check/b", Value.map sampleV1Cfg)])]

/-- A document without a `service` key. -/
def sampleNoServiceDoc : Mapping :=
  [(Key.str "extensions", Value.map [(Key.str "health_check", Value.map sampleV1Cfg)])]

/-- A document with the given value under `service` and a valid top-level
`extensions` mapping. -/
def sampleServiceDoc (service : Value) : Mapping :=
  [(Key.str "service", service),
   (Key.str "extensions", Value.map [(Key.str "health_check", Value.map sampleV1Cfg)])]

/-- A document whose service lists the given entries, with the given
top-level entries after the `service` key. -/
def sampleDocWith (entries : List Value) (top : Mapping) : Mapping :=
  (Key.str "service", Value.map [(Key.str "extensions", Value.seq entries)]) :: top

def sampleV2Cfg : Mapping :=
  [(Key.str "http",
      Value.map [(Key.str "status", Value.map [(Key.str "path", Value.str "/healthz")]),
                 (Key.str "endpoint", Value.str "0.0.0.0:9090")])]

/-- A v1 configuration with the given endpoint value. -/
def sampleV1Endpoint (ep : Value) : Mapping :=
  [(Key.str "path", Value.str "/live"), (Key.str "endpoint", ep)]

/-- A v2 configuration with the given endpoint value under `http`. -/
def sampleV2Endpoint (ep : Value) : Mapping :=
  [(Key.str "http",
      Value.map [(Key.str "status", Value.map [(Key.str "path", Value.str "/healthz")]),
                 (Key.str "endpoint", ep)])]

/-- A document whose only candidate `health_check` has the given endpoint. -/
def sampleEndpointDoc (ep : String) : Mapping :=
  sampleDocWith [Value.str "health_check"]
    [(Key.str "extensions",
      Value.map [(Key.str "health_check", Value.map [(Key.str "endpoint", Value.str ep)])])]

/-- A document listing `health_check` then `healthcheckv2`, both defined, the
first with the given body and the second with the given body. -/
def sampleTwoDefinedDoc (first second : Value) : Mapping :=
  sampleDocWith [Value.str "health_check", Value.str "healthcheckv2"]
    [(Key.str "extensions",
      Value.map [(Key.str "healthcheckv2", second), (Key.str "health_check", first)])]

/-! ## Lemmas on the two loops -/

theorem healthCheckServiceExtensions_cons (e : Value) (rest : List Value) :
    healthCheckServiceExtensions (e :: rest)
      = candidateOf e ++ healthCheckServiceExtensions rest := by
  cases e <;> simp only [healthCheckServiceExtensions, candidateOf, asString, List.nil_append]
  split <;> rfl

theorem healthCheckServiceExtensions_append (a b : List Value) :
    healthCheckServiceExtensions (a ++ b)
      = healthCheckServiceExtensions a ++ healthCheckServiceExtensions b := by
  induction a with
  | nil => rfl
  | cons e rest ih =>
    rw [List.cons_append, healthCheckServiceExtensions_cons, healthCheckServiceExtensions_cons,
      ih, List.append_assoc]

theorem mem_candidateOf (e : Value) (n : String) :
    n ∈ candidateOf e ↔ e = Value.str n ∧ isHealthCheckName n = true := by
  cases e <;> simp only [candidateOf, asString, List.not_mem_nil, false_iff, not_and] <;>
    try (intro h; cases h)
  rename_i t
  by_cases ht : isHealthCheckName t = true
  · simp only [ht, if_true, List.mem_singleton]
    constructor
    · intro h; subst h; exact ⟨rfl, ht⟩
    · rintro ⟨h, _⟩; cases h; rfl
  · simp only [ht]
    constructor
    · intro h; cases h
    · rintro ⟨h, hn⟩; cases h; exact absurd hn ht

theorem mem_healthCheckServiceExtensions (s : List Value) (n : String) :
    n ∈ healthCheckServiceExtensions s ↔ Value.str n ∈ s ∧ isHealthCheckName n = true := by
  induction s with
  | nil => simp [healthCheckServiceExtensions]
  | cons e rest ih =>
    rw [healthCheckServiceExtensions_cons, List.mem_append, mem_candidateOf, ih, List.mem_cons]
    constructor
    · rintro (⟨h, hn⟩ | ⟨h, hn⟩)
      · exact ⟨Or.inl h.symm, hn⟩
      · exact ⟨Or.inr h, hn⟩
    · rintro ⟨h | h, hn⟩
      · exact Or.inl ⟨h.symm, hn⟩
      · exact Or.inr ⟨h, hn⟩

theorem isHealthCheckName_iff (n : String) :
    isHealthCheckName n = true
      ↔ hasPrefix n "health_check" = true ∨ hasPrefix n "healthcheckv2" = true := by
  simp [isHealthCheckName]

theorem probeOfFirstDefined_skip (m : Mapping) (l1 l2 : List String)
    (h : ∀ n, n ∈ l1 → lookup (Key.str n) m = none) :
    probeOfFirstDefined m (l1 ++ l2) = probeOfFirstDefined m l2 := by
  induction l1 with
  | nil => rfl
  | cons a rest ih =>
    have ha : lookup (Key.str a) m = none := h a (List.mem_cons_self a rest)
    simp only [List.cons_append, probeOfFirstDefined, ha]
    exact ih (fun n hn => h n (List.mem_cons_of_mem a hn))

theorem probeOfFirstDefined_error_iff (m : Mapping) (l : List String) :
    probeOfFirstDefined m l = Except.error Err.errNoExtensionHealthCheck
      ↔ ∀ n, n ∈ l → lookup (Key.str n) m = none := by
  induction l with
  | nil => simp [probeOfFirstDefined]
  | cons a rest ih =>
    cases ha : lookup (Key.str a) m with
    | none => simp [probeOfFirstDefined, ha, ih]
    | some v =>
      simp only [probeOfFirstDefined, ha, createProbeFromExtension, List.mem_cons]
      constructor
      · intro h; cases h
      · intro h
        have := h a (Or.inl rfl)
        rw [ha] at this
        cases this

theorem probeOfFirstDefined_ok_of_defined (m : Mapping) (l : List String) (n : String)
    (hn : n ∈ l) (hdef : lookup (Key.str n) m ≠ none) :
    ∃ p, probeOfFirstDefined m l = Except.ok p := by
  induction l with
  | nil => cases hn
  | cons a rest ih =>
    cases ha : lookup (Key.str a) m with
    | some v =>
      simp only [probeOfFirstDefined, ha, createProbeFromExtension]
      exact ⟨_, rfl⟩
    | none =>
      simp only [probeOfFirstDefined, ha]
      rcases List.mem_cons.mp hn with h | h
      · subst h; exact absurd ha hdef
      · exact ih h

/-- With `service` a mapping and its `extensions` a sequence, the result of
`ConfigToContainerProbe` is that of the part after the two shape checks. -/
theorem ConfigToContainerProbe_of_sequence (config service : Mapping) (s : List Value)
    (hsvc : lookup (Key.str "service") config = some (Value.map service))
    (hseq : lookup (Key.str "extensions") service = some (Value.seq s)) :
    ConfigToContainerProbe config =
      if (healthCheckServiceExtensions s).length = 0 then
        Except.error Err.ErrNoServiceExtensionHealthCheck
      else
        match lookup (Key.str "extensions") config with
        | none => Except.error Err.errNoExtensions
        | some extensionsProperty =>
          match asMap extensionsProperty with
          | none => Except.error Err.errExtensionsNotAMap
          | some extensions =>
            probeOfFirstDefined extensions (healthCheckServiceExtensions s) := by
  simp only [ConfigToContainerProbe, hsvc, asMap, hseq, asSlice]

/-! ## The validation chain: claims C1 to C9 -/

/-- C1: when `service` is a mapping whose `extensions` is a sequence `s`, the
top-level `extensions` is a mapping `m`, and `n` is the first entry of `s` that
is a string with prefix `health_check` or `healthcheckv2` and a key of `m`
(every such candidate before it is not a key of `m`), `ConfigToContainerProbe`
succeeds with the HTTP-get probe built from
`extractProbeConfigurationFromExtension n m[n]`. -/
theorem C1_first_defined_candidate (config service m : Mapping) (pre post : List Value)
    (n : String) (v : Value)
    (hsvc : lookup (Key.str "service") config = some (Value.map service))
    (hseq : lookup (Key.str "extensions") service
      = some (Value.seq (pre ++ Value.str n :: post)))
    (hext : lookup (Key.str "extensions") config = some (Value.map m))
    (hn : hasPrefix n "health_check" = true ∨ hasPrefix n "healthcheckv2" = true)
    (hv : lookup (Key.str n) m = some v)
    (hpre : ∀ k, Value.str k ∈ pre →
      (hasPrefix k "health_check" = true ∨ hasPrefix k "healthcheckv2" = true) →
      lookup (Key.str k) m = none) :
    ConfigToContainerProbe config
      = Except.ok (httpGetProbe (extractProbeConfigurationFromExtension n v)) := by
  have hcand : isHealthCheckName n = true := (isHealthCheckName_iff n).mpr hn
  have hne : (healthCheckServiceExtensions (pre ++ Value.str n :: post)).length ≠ 0 := by
    rw [healthCheckServiceExtensions_append, healthCheckServiceExtensions_cons]
    simp [candidateOf, asString, hcand]
  rw [ConfigToContainerProbe_of_sequence config service _ hsvc hseq, if_neg hne, hext]
  simp only [asMap]
  rw [healthCheckServiceExtensions_append, probeOfFirstDefined_skip,
    healthCheckServiceExtensions_cons]
  · simp only [candidateOf, asString, hcand, if_true, List.singleton_append,
      probeOfFirstDefined, hv, createProbeFromExtension, httpGetProbe]
  · intro k hk
    have := (mem_healthCheckServiceExtensions pre k).mp hk
    exact hpre k this.1 ((isHealthCheckName_iff k).mp this.2)

/-- C1 at the document listing `health_check/a` then `health_check/b` with only
the second defined: the undefined first candidate is skipped. -/
theorem C1_first_defined_candidate_witness :
    ConfigToContainerProbe sampleSkipDoc
      = Except.ok (httpGetProbe
          (extractProbeConfigurationFromExtension "health_check/b" (Value.map sampleV1Cfg)))
    ∧ ConfigToContainerProbe sampleSkipDoc
      = Except.ok (httpGetProbe { path := "/live", port := IntOrString.int 8080 }) :=
  ⟨C1_first_defined_candidate sampleSkipDoc
      [(Key.str "extensions",
        Value.seq [Value.str "health_check/a", Value.str "health_check/b"])]
      [(Key.str "health_check/b", Value.map sampleV1Cfg)]
      [Value.str "health_check/a"] [] "health_check/b" (Value.map sampleV1Cfg)
      rfl rfl rfl (Or.inl rfl) rfl
      (by
        intro k hk _
        have hk' : k = "health_check/a" := by simpa using hk
        subst hk'
        rfl),
   rfl⟩

/-- C2: a document without a top-level `service` key gives `errNoService`,
whatever else it contains. -/
theorem C2_no_service (config : Mapping)
    (h : lookup (Key.str "service") config = none) :
    ConfigToContainerProbe config = Except.error Err.errNoService := by
  simp only [ConfigToContainerProbe, h]

/-- C2 at a document that has only a valid top-level `extensions`. -/
theorem C2_no_service_witness :
    lookup (Key.str "service") sampleNoServiceDoc = none
    ∧ ConfigToContainerProbe sampleNoServiceDoc = Except.error Err.errNoService :=
  ⟨rfl, C2_no_service sampleNoServiceDoc rfl⟩

/-- C3: a document whose `service` key is present with a value that is not a
mapping gives `errServiceNotAMap`. -/
theorem C3_service_not_a_map (config : Mapping) (v : Value)
    (h : lookup (Key.str "service") config = some v)
    (hv : ∀ kvs, v ≠ Value.map kvs) :
    ConfigToContainerProbe config = Except.error Err.errServiceNotAMap := by
  cases v with
  | map kvs => exact absurd rfl (hv kvs)
  | _ => simp only [ConfigToContainerProbe, h, asMap]

/-- C3 at documents whose `service` is a string, a number, a sequence and a
null value. -/
theorem C3_service_not_a_map_witness :
    ConfigToContainerProbe (sampleServiceDoc (Value.str "pipelines"))
      = Except.error Err.errServiceNotAMap
    ∧ ConfigToContainerProbe (sampleServiceDoc (Value.int 7))
      = Except.error Err.errServiceNotAMap
    ∧ ConfigToContainerProbe (sampleServiceDoc (Value.seq [Value.str "health_check"]))
      = Except.error Err.errServiceNotAMap
    ∧ ConfigToContainerProbe (sampleServiceDoc Value.null)
      = Except.error Err.errServiceNotAMap :=
  ⟨C3_service_not_a_map _ (Value.str "pipelines") rfl (fun _ h => by cases h),
   C3_service_not_a_map _ (Value.int 7) rfl (fun _ h => by cases h),
   C3_service_not_a_map _ (Value.seq [Value.str "health_check"]) rfl (fun _ h => by cases h),
   C3_service_not_a_map _ Value.null rfl (fun _ h => by cases h)⟩

/-- C4: a document whose `service` is a mapping without an `extensions` key
gives `ErrNoServiceExtensions`, whether or not the top-level `extensions`
exists. -/
theorem C4_no_service_extensions (config service : Mapping)
    (hsvc : lookup (Key.str "service") config = some (Value.map service))
    (h : lookup (Key.str "extensions") service = none) :
    ConfigToContainerProbe config = Except.error Err.ErrNoServiceExtensions := by
  simp only [ConfigToContainerProbe, hsvc, asMap, h]

/-- C4 at a document with a top-level `extensions` and at one without. -/
theorem C4_no_service_extensions_witness :
    ConfigToContainerProbe
        (sampleServiceDoc (Value.map [(Key.str "pipelines", Value.null)]))
      = Except.error Err.ErrNoServiceExtensions
    ∧ ConfigToContainerProbe [(Key.str "service", Value.map [])]
      = Except.error Err.ErrNoServiceExtensions :=
  ⟨C4_no_service_extensions _ [(Key.str "pipelines", Value.null)] rfl rfl,
   C4_no_service_extensions _ [] rfl rfl⟩

/-- C5: a document whose `service` is a mapping whose `extensions` key holds a
value that is not a sequence gives `errServiceExtensionsNotSlice`. -/
theorem C5_service_extensions_not_slice (config service : Mapping) (v : Value)
    (hsvc : lookup (Key.str "service") config = some (Value.map service))
    (h : lookup (Key.str "extensions") service = some v)
    (hv : ∀ xs, v ≠ Value.seq xs) :
    ConfigToContainerProbe config = Except.error Err.errServiceExtensionsNotSlice := by
  cases v with
  | seq xs => exact absurd rfl (hv xs)
  | _ => simp only [ConfigToContainerProbe, hsvc, asMap, h, asSlice]

/-- C5 at documents whose `service.extensions` is a string, a mapping, a number
and a null value. -/
theorem C5_service_extensions_not_slice_witness :
    ConfigToContainerProbe
        (sampleServiceDoc (Value.map [(Key.str "extensions", Value.str "health_check")]))
      = Except.error Err.errServiceExtensionsNotSlice
    ∧ ConfigToContainerProbe
        (sampleServiceDoc (Value.map [(Key.str "extensions",
          Value.map [(Key.str "health_check", Value.null)])]))
      = Except.error Err.errServiceExtensionsNotSlice
    ∧ ConfigToContainerProbe
        (sampleServiceDoc (Value.map [(Key.str "extensions", Value.int 1)]))
      = Except.error Err.errServiceExtensionsNotSlice
    ∧ ConfigToContainerProbe
        (sampleServiceDoc (Value.map [(Key.str "extensions", Value.null)]))
      = Except.error Err.errServiceExtensionsNotSlice :=
  ⟨C5_service_extensions_not_slice _ _ (Value.str "health_check") rfl rfl
      (fun _ h => by cases h),
   C5_service_extensions_not_slice _ _ (Value.map [(Key.str "health_check", Value.null)])
      rfl rfl (fun _ h => by cases h),
   C5_service_extensions_not_slice _ _ (Value.int 1) rfl rfl (fun _ h => by cases h),
   C5_service_extensions_not_slice _ _ Value.null rfl rfl (fun _ h => by cases h)⟩

/-- C6: when `service.extensions` is a sequence `s` in which no entry is a
string with prefix `health_check` or `healthcheckv2` (the entries are of any
type, and `s` may be empty), the result is `ErrNoServiceExtensionHealthCheck`,
whatever the top-level `extensions` is, present or not, a mapping or not: no
entry of `s` causes any other error. -/
theorem C6_no_service_extension_health_check (config service : Mapping) (s : List Value)
    (hsvc : lookup (Key.str "service") config = some (Value.map service))
    (hseq : lookup (Key.str "extensions") service = some (Value.seq s))
    (hnone : ∀ k, Value.str k ∈ s →
      hasPrefix k "health_check" = false ∧ hasPrefix k "healthcheckv2" = false) :
    ConfigToContainerProbe config
      = Except.error Err.ErrNoServiceExtensionHealthCheck := by
  have hempty : healthCheckServiceExtensions s = [] := by
    apply List.eq_nil_iff_forall_not_mem.mpr
    intro k hk
    have hm := (mem_healthCheckServiceExtensions s k).mp hk
    have hp := hnone k hm.1
    rcases (isHealthCheckName_iff k).mp hm.2 with h | h
    · rw [hp.1] at h; cases h
    · rw [hp.2] at h; cases h
  rw [ConfigToContainerProbe_of_sequence config service s hsvc hseq, hempty]
  rfl

/-- C6 at a sequence of a number, a non-matching string and a mapping, with no
top-level `extensions` key. -/
theorem C6_no_service_extension_health_check_witness :
    ConfigToContainerProbe
        (sampleDocWith [Value.int 3, Value.str "zpages", Value.map []] [])
      = Except.error Err.ErrNoServiceExtensionHealthCheck :=
  C6_no_service_extension_health_check
    (sampleDocWith [Value.int 3, Value.str "zpages", Value.map []] [])
    [(Key.str "extensions", Value.seq [Value.int 3, Value.str "zpages", Value.map []])]
    [Value.int 3, Value.str "zpages", Value.map []] rfl rfl
    (by
      intro k hk
      have hk' : k = "zpages" := by simpa using hk
      subst hk'
      exact ⟨rfl, rfl⟩)

/-- Entries that are not health-check names do not change the result: two
documents whose `service.extensions` sequences differ by one entry that is not
a string with a recognised prefix, and that agree on the top-level
`extensions`, have the same result. -/
theorem ConfigToContainerProbe_skips_entry (config service other otherService : Mapping)
    (pre post : List Value) (e : Value)
    (he : ∀ k, e = Value.str k →
      hasPrefix k "health_check" = false ∧ hasPrefix k "healthcheckv2" = false)
    (hsvc : lookup (Key.str "service") config = some (Value.map service))
    (hseq : lookup (Key.str "extensions") service = some (Value.seq (pre ++ e :: post)))
    (ho : lookup (Key.str "service") other = some (Value.map otherService))
    (hoseq : lookup (Key.str "extensions") otherService = some (Value.seq (pre ++ post)))
    (hext : lookup (Key.str "extensions") other = lookup (Key.str "extensions") config) :
    ConfigToContainerProbe config = ConfigToContainerProbe other := by
  have hc : candidateOf e = [] := by
    apply List.eq_nil_iff_forall_not_mem.mpr
    intro k hk
    have hm := (mem_candidateOf e k).mp hk
    have hp := he k hm.1
    rcases (isHealthCheckName_iff k).mp hm.2 with h | h
    · rw [hp.1] at h; cases h
    · rw [hp.2] at h; cases h
  rw [ConfigToContainerProbe_of_sequence config service _ hsvc hseq,
    ConfigToContainerProbe_of_sequence other otherService _ ho hoseq, hext,
    healthCheckServiceExtensions_append, healthCheckServiceExtensions_cons, hc,
    List.nil_append, ← healthCheckServiceExtensions_append]

/-- The candidates of a sequence with a health-check name are not empty. -/
theorem healthCheckServiceExtensions_length_ne_zero (s : List Value)
    (hcand : ∃ k, Value.str k ∈ s ∧
      (hasPrefix k "health_check" = true ∨ hasPrefix k "healthcheckv2" = true)) :
    (healthCheckServiceExtensions s).length ≠ 0 := by
  obtain ⟨k, hk, hp⟩ := hcand
  have hm : k ∈ healthCheckServiceExtensions s :=
    (mem_healthCheckServiceExtensions s k).mpr ⟨hk, (isHealthCheckName_iff k).mpr hp⟩
  intro h0
  rw [List.length_eq_zero] at h0
  rw [h0] at hm
  cases hm

/-- C7: when `service.extensions` is a sequence with at least one string of
prefix `health_check` or `healthcheckv2` and the document has no top-level
`extensions` key, the result is `errNoExtensions`. -/
theorem C7_no_extensions (config service : Mapping) (s : List Value)
    (hsvc : lookup (Key.str "service") config = some (Value.map service))
    (hseq : lookup (Key.str "extensions") service = some (Value.seq s))
    (hcand : ∃ k, Value.str k ∈ s ∧
      (hasPrefix k "health_check" = true ∨ hasPrefix k "healthcheckv2" = true))
    (hext : lookup (Key.str "extensions") config = none) :
    ConfigToContainerProbe config = Except.error Err.errNoExtensions := by
  rw [ConfigToContainerProbe_of_sequence config service s hsvc hseq,
    if_neg (healthCheckServiceExtensions_length_ne_zero s hcand), hext]

/-- C7 at a document listing `healthcheckv2` with no top-level `extensions`. -/
theorem C7_no_extensions_witness :
    ConfigToContainerProbe (sampleDocWith [Value.str "zpages", Value.str "healthcheckv2"] [])
      = Except.error Err.errNoExtensions :=
  C7_no_extensions (sampleDocWith [Value.str "zpages", Value.str "healthcheckv2"] [])
    [(Key.str "extensions", Value.seq [Value.str "zpages", Value.str "healthcheckv2"])]
    [Value.str "zpages", Value.str "healthcheckv2"] rfl rfl
    ⟨"healthcheckv2", by simp, Or.inr rfl⟩ rfl

/-- C8: when `service.extensions` is a sequence with at least one string of
prefix `health_check` or `healthcheckv2` and the top-level `extensions` key is
present with a value that is not a mapping, the result is
`errExtensionsNotAMap`. -/
theorem C8_extensions_not_a_map (config service : Mapping) (s : List Value) (v : Value)
    (hsvc : lookup (Key.str "service") config = some (Value.map service))
    (hseq : lookup (Key.str "extensions") service = some (Value.seq s))
    (hcand : ∃ k, Value.str k ∈ s ∧
      (hasPrefix k "health_check" = true ∨ hasPrefix k "healthcheckv2" = true))
    (hext : lookup (Key.str "extensions") config = some v)
    (hv : ∀ kvs, v ≠ Value.map kvs) :
    ConfigToContainerProbe config = Except.error Err.errExtensionsNotAMap := by
  rw [ConfigToContainerProbe_of_sequence config service s hsvc hseq,
    if_neg (healthCheckServiceExtensions_length_ne_zero s hcand), hext]
  cases v with
  | map kvs => exact absurd rfl (hv kvs)
  | _ => simp only [asMap]

/-- C8 at a document listing `health_check` whose top-level `extensions` is a
sequence. -/
theorem C8_extensions_not_a_map_witness :
    ConfigToContainerProbe
        (sampleDocWith [Value.str "health_check"]
          [(Key.str "extensions", Value.seq [Value.str "health_check"])])
      = Except.error Err.errExtensionsNotAMap :=
  C8_extensions_not_a_map
    (sampleDocWith [Value.str "health_check"]
      [(Key.str "extensions", Value.seq [Value.str "health_check"])])
    [(Key.str "extensions", Value.seq [Value.str "health_check"])]
    [Value.str "health_check"] (Value.seq [Value.str "health_check"]) rfl rfl
    ⟨"health_check", by simp, Or.inl rfl⟩ rfl (fun _ h => by cases h)

/-- C9: when `service.extensions` is a sequence `s` with at least one string of
prefix `health_check` or `healthcheckv2` and the top-level `extensions` is a
mapping `m`, the result is `errNoExtensionHealthCheck` if and only if no such
string of `s` is a key of `m`, and otherwise the call succeeds. -/
theorem C9_no_extension_health_check (config service m : Mapping) (s : List Value)
    (hsvc : lookup (Key.str "service") config = some (Value.map service))
    (hseq : lookup (Key.str "extensions") service = some (Value.seq s))
    (hcand : ∃ k, Value.str k ∈ s ∧
      (hasPrefix k "health_check" = true ∨ hasPrefix k "healthcheckv2" = true))
    (hext : lookup (Key.str "extensions") config = some (Value.map m)) :
    (ConfigToContainerProbe config = Except.error Err.errNoExtensionHealthCheck
      ↔ ∀ k, Value.str k ∈ s →
          (hasPrefix k "health_check" = true ∨ hasPrefix k "healthcheckv2" = true) →
          lookup (Key.str k) m = none)
    ∧ (ConfigToContainerProbe config ≠ Except.error Err.errNoExtensionHealthCheck →
        ∃ p, ConfigToContainerProbe config = Except.ok p) := by
  have hres : ConfigToContainerProbe config
      = probeOfFirstDefined m (healthCheckServiceExtensions s) := by
    rw [ConfigToContainerProbe_of_sequence config service s hsvc hseq,
      if_neg (healthCheckServiceExtensions_length_ne_zero s hcand), hext]
    simp only [asMap]
  have hiff : probeOfFirstDefined m (healthCheckServiceExtensions s)
        = Except.error Err.errNoExtensionHealthCheck
      ↔ ∀ k, Value.str k ∈ s →
          (hasPrefix k "health_check" = true ∨ hasPrefix k "healthcheckv2" = true) →
          lookup (Key.str k) m = none := by
    rw [probeOfFirstDefined_error_iff]
    constructor
    · intro h k hk hp
      exact h k ((mem_healthCheckServiceExtensions s k).mpr
        ⟨hk, (isHealthCheckName_iff k).mpr hp⟩)
    · intro h k hk
      have hm := (mem_healthCheckServiceExtensions s k).mp hk
      exact h k hm.1 ((isHealthCheckName_iff k).mp hm.2)
  rw [hres]
  refine ⟨hiff, ?_⟩
  intro hne
  rw [Ne, probeOfFirstDefined_error_iff] at hne
  push_neg at hne
  obtain ⟨k, hk, hdef⟩ := hne
  exact probeOfFirstDefined_ok_of_defined m _ k hk hdef

/-- C9 at a document whose only candidate is not defined, and at the document
listing `health_check/a` then `health_check/b` with the second defined. -/
theorem C9_no_extension_health_check_witness :
    ConfigToContainerProbe
        (sampleDocWith [Value.str "health_check"]
          [(Key.str "extensions", Value.map [(Key.str "zpages", Value.null)])])
      = Except.error Err.errNoExtensionHealthCheck
    ∧ ∃ p, ConfigToContainerProbe sampleSkipDoc = Except.ok p :=
  ⟨(C9_no_extension_health_check
      (sampleDocWith [Value.str "health_check"]
        [(Key.str "extensions", Value.map [(Key.str "zpages", Value.null)])])
      [(Key.str "extensions", Value.seq [Value.str "health_check"])]
      [(Key.str "zpages", Value.null)] [Value.str "health_check"] rfl rfl
      ⟨"health_check", by simp, Or.inl rfl⟩ rfl).1.mpr
      (by
        intro k hk _
        have hk' : k = "health_check" := by simpa using hk
        subst hk'
        rfl),
   (C9_no_extension_health_check sampleSkipDoc
      [(Key.str "extensions",
        Value.seq [Value.str "health_check/a", Value.str "health_check/b"])]
      [(Key.str "health_check/b", Value.map sampleV1Cfg)]
      [Value.str "health_check/a", Value.str "health_check/b"] rfl rfl
      ⟨"health_check/a", by simp, Or.inl rfl⟩ rfl).2
      (by intro h; cases h)⟩

/-! ## The probe synthesizer: claim C10 -/

/-- C10: for a name that does not start with `healthcheckv2`,
`extractPathFromExtensionConfig` returns the value of the `path` key when that
key is present with a string value (the empty string included), and `/` when
the key is absent or its value is not a string. -/
theorem C10_v1_path (name : String) (cfg : Mapping)
    (hname : hasPrefix name "healthcheckv2" = false) :
    (∀ p, lookup (Key.str "path") cfg = some (Value.str p) →
      extractPathFromExtensionConfig name cfg = p)
    ∧ ((∀ p, lookup (Key.str "path") cfg ≠ some (Value.str p)) →
      extractPathFromExtensionConfig name cfg = "/") := by
  constructor
  · intro p hp
    simp [extractPathFromExtensionConfig, hname, hp, asString]
  · intro hp
    cases hl : lookup (Key.str "path") cfg with
    | none => simp [extractPathFromExtensionConfig, hname, hl, defaultHealthCheckPath]
    | some v =>
      cases v with
      | str q => exact absurd hl (hp q)
      | _ =>
        simp [extractPathFromExtensionConfig, hname, hl, asString, defaultHealthCheckPath]

/-- C10 at the name `health_check`: the configuration with path `/live` gives
`/live`, an empty path is returned as it is, and a numeric path and the empty
configuration give `/`. -/
theorem C10_v1_path_witness :
    extractPathFromExtensionConfig "health_check" sampleV1Cfg = "/live"
    ∧ extractPathFromExtensionConfig "health_check" [(Key.str "path", Value.str "")] = ""
    ∧ extractPathFromExtensionConfig "health_check" [(Key.str "path", Value.int 1)] = "/"
    ∧ extractPathFromExtensionConfig "health_check" [] = "/" :=
  ⟨(C10_v1_path "health_check" sampleV1Cfg rfl).1 "/live" rfl,
   (C10_v1_path "health_check" [(Key.str "path", Value.str "")] rfl).1 "" rfl,
   (C10_v1_path "health_check" [(Key.str "path", Value.int 1)] rfl).2
      (fun _ h => by cases h),
   (C10_v1_path "health_check" [] rfl).2 (fun _ h => by cases h)⟩

/-! ## Lemmas on the endpoint and the path -/

theorem splitColonAux_length (cs cur : List Char) :
    (splitColonAux cs cur).length = cs.count ':' + 1 := by
  induction cs generalizing cur with
  | nil => rfl
  | cons c rest ih =>
    by_cases hc : c = ':'
    · subst hc
      simp [splitColonAux, ih]
    · have hne : ¬ (c == ':') = true := by simpa using hc
      simp [splitColonAux, hc, ih, List.count_cons, hne]

theorem splitColonAux_of_not_mem (cs cur : List Char) (h : ':' ∉ cs) :
    splitColonAux cs cur = [cur ++ cs] := by
  induction cs generalizing cur with
  | nil => simp [splitColonAux]
  | cons c rest ih =>
    have hc : c ≠ ':' := fun hc => h (by simp [hc])
    have hrest : ':' ∉ rest := fun hm => h (List.mem_cons_of_mem c hm)
    simp [splitColonAux, hc, ih _ hrest]

theorem splitColonAux_one_colon (h p cur : List Char) (hh : ':' ∉ h) (hp : ':' ∉ p) :
    splitColonAux (h ++ ':' :: p) cur = [cur ++ h, p] := by
  induction h generalizing cur with
  | nil => simp [splitColonAux, splitColonAux_of_not_mem p [] hp]
  | cons c rest ih =>
    have hc : c ≠ ':' := fun hc => hh (by simp [hc])
    have hrest : ':' ∉ rest := fun hm => hh (List.mem_cons_of_mem c hm)
    simp [splitColonAux, hc, ih _ hrest]

theorem defaultHealthCheckEndpoint_eq : defaultHealthCheckEndpoint = IntOrString.int 13133 := by
  decide

theorem portOfEndpoint_one_colon (e h p : String) (he : e.data = h.data ++ ':' :: p.data)
    (hh : ':' ∉ h.data) (hp : ':' ∉ p.data) :
    portOfEndpoint (Value.str e) = intstrParse p := by
  simp only [portOfEndpoint, asString, splitColon, he,
    splitColonAux_one_colon h.data p.data [] hh hp, List.map, List.nil_append]

theorem portOfEndpoint_count_ne_one (e : String) (he : e.data.count ':' ≠ 1) :
    portOfEndpoint (Value.str e) = IntOrString.int 13133 := by
  have hlen : (splitColon e).length ≠ 2 := by
    simp only [splitColon, List.length_map, splitColonAux_length]
    omega
  simp only [portOfEndpoint, asString]
  split
  · rename_i heq
    rw [heq] at hlen
    exact absurd rfl hlen
  · exact defaultHealthCheckEndpoint_eq

theorem portOfEndpoint_not_string (v : Value) (hv : ∀ s, v ≠ Value.str s) :
    portOfEndpoint v = IntOrString.int 13133 := by
  cases v with
  | str s => exact absurd rfl (hv s)
  | _ => exact defaultHealthCheckEndpoint_eq

/-- The code reads the port from the endpoint location, and falls back to the
default port when the location holds nothing. -/
theorem extractPort_eq_location (name : String) (cfg : Mapping) :
    extractPortFromExtensionConfig name cfg =
      match endpointLocation name cfg with
      | some ep => portOfEndpoint ep
      | none => IntOrString.int 13133 := by
  unfold extractPortFromExtensionConfig endpointLocation index
  by_cases hname : hasPrefix name "healthcheckv2" = true
  · simp only [hname, if_true]
    cases hl : lookup (Key.str "http") cfg with
    | none => simp only [asMap]; exact defaultHealthCheckEndpoint_eq
    | some v =>
      cases v with
      | map http =>
        simp only [asMap]
        cases lookup (Key.str "endpoint") http with
        | none => exact defaultHealthCheckEndpoint_eq
        | some ep => rfl
      | _ => simp only [asMap]; exact defaultHealthCheckEndpoint_eq
  · simp only [hname]
    cases lookup (Key.str "endpoint") cfg with
    | none => exact defaultHealthCheckEndpoint_eq
    | some ep => rfl

/-- The code reads the path from the path location, and falls back to the
default path of the variant when the location holds no string. -/
theorem extractPath_eq_location (name : String) (cfg : Mapping) :
    extractPathFromExtensionConfig name cfg =
      match pathLocation name cfg with
      | some (Value.str p) => p
      | _ => (variantDefaults name).path := by
  unfold extractPathFromExtensionConfig pathLocation index variantDefaults
  by_cases hname : hasPrefix name "healthcheckv2" = true
  · simp only [hname, if_true]
    cases hl : lookup (Key.str "http") cfg with
    | none => simp only [asMap]; rfl
    | some v =>
      cases v with
      | map http =>
        simp only [asMap]
        cases hs : lookup (Key.str "status") http with
        | none => simp only [asMap]; rfl
        | some w =>
          cases w with
          | map status =>
            simp only [asMap]
            cases hp : lookup (Key.str "path") status with
            | none => rfl
            | some q => cases q <;> simp only [asString] <;> rfl
          | _ => simp only [asMap]; rfl
      | _ => simp only [asMap]; rfl
  · simp only [hname]
    cases hp : lookup (Key.str "path") cfg with
    | none => rfl
    | some q => cases q <;> simp only [asString] <;> rfl

/-! ## The probe synthesizer: claims C11 to C15 -/

/-- C11: for a name that starts with `healthcheckv2`,
`extractPathFromExtensionConfig` returns the value at `http.status.path` when
`http` and `status` are mappings and `path` is a string, and `/health/status`
in every other case. -/
theorem C11_v2_path (name : String) (cfg : Mapping)
    (hname : hasPrefix name "healthcheckv2" = true) :
    (∀ http status p,
      lookup (Key.str "http") cfg = some (Value.map http) →
      lookup (Key.str "status") http = some (Value.map status) →
      lookup (Key.str "path") status = some (Value.str p) →
      extractPathFromExtensionConfig name cfg = p)
    ∧ ((¬ ∃ http status p,
        lookup (Key.str "http") cfg = some (Value.map http) ∧
        lookup (Key.str "status") http = some (Value.map status) ∧
        lookup (Key.str "path") status = some (Value.str p)) →
      extractPathFromExtensionConfig name cfg = "/health/status") := by
  constructor
  · intro http status p h1 h2 h3
    rw [extractPath_eq_location]
    simp only [pathLocation, hname, if_true, h1, h2, h3]
  · intro hno
    rw [extractPath_eq_location]
    simp only [pathLocation, variantDefaults, hname, if_true]
    cases h1 : lookup (Key.str "http") cfg with
    | none => rfl
    | some v =>
      cases v with
      | map http =>
        dsimp only
        cases h2 : lookup (Key.str "status") http with
        | none => rfl
        | some w =>
          cases w with
          | map status =>
            dsimp only
            cases h3 : lookup (Key.str "path") status with
            | none => rfl
            | some q =>
              cases q with
              | str t => exact absurd ⟨http, status, t, h1, h2, h3⟩ hno
              | _ => rfl
          | _ => rfl
      | _ => rfl

/-- C11 at the name `healthcheckv2`: the configuration with `http.status.path`
`/healthz` gives `/healthz`, and a v1-shaped configuration, a `status` that is
a string and the empty configuration give `/health/status`. -/
theorem C11_v2_path_witness :
    extractPathFromExtensionConfig "healthcheckv2" sampleV2Cfg = "/healthz"
    ∧ extractPathFromExtensionConfig "healthcheckv2" sampleV1Cfg = "/health/status"
    ∧ extractPathFromExtensionConfig "healthcheckv2"
        [(Key.str "http", Value.map [(Key.str "status", Value.str "/healthz")])]
      = "/health/status"
    ∧ extractPathFromExtensionConfig "healthcheckv2" [] = "/health/status" :=
  ⟨(C11_v2_path "healthcheckv2" sampleV2Cfg rfl).1 _ _ "/healthz" rfl rfl rfl,
   (C11_v2_path "healthcheckv2" sampleV1Cfg rfl).2
      (by rintro ⟨http, status, q, h1, _, _⟩; cases h1),
   (C11_v2_path "healthcheckv2"
      [(Key.str "http", Value.map [(Key.str "status", Value.str "/healthz")])] rfl).2
      (by
        rintro ⟨http, status, q, h1, h2, _⟩
        cases h1
        cases h2),
   (C11_v2_path "healthcheckv2" [] rfl).2
      (by rintro ⟨http, status, q, h1, _, _⟩; cases h1)⟩

/-- C12, as amended: when the endpoint location of the variant (`endpoint` for
a v1 name, `http.endpoint` with `http` a mapping for a `healthcheckv2` name)
holds a string `h:p` with exactly one colon, `extractPortFromExtensionConfig`
returns the int-or-string parse of `p`: the numeric port when `p` is a decimal
integer within the 32-bit range of a numeric port, the named port `p`
otherwise, that is when `p` is not a decimal integer or is one outside that
range. -/
theorem C12_port_of_host_port (name : String) (cfg : Mapping) (e h p : String)
    (hloc : endpointLocation name cfg = some (Value.str e))
    (he : e.data = h.data ++ ':' :: p.data)
    (hh : ':' ∉ h.data) (hp : ':' ∉ p.data) :
    extractPortFromExtensionConfig name cfg = intstrParse p
    ∧ (∀ i, decimalInteger p = some i → -(2 : Int) ^ 31 ≤ i → i < (2 : Int) ^ 31 →
        extractPortFromExtensionConfig name cfg = IntOrString.int i)
    ∧ (∀ i, decimalInteger p = some i → ¬ (-(2 : Int) ^ 31 ≤ i ∧ i < (2 : Int) ^ 31) →
        extractPortFromExtensionConfig name cfg = IntOrString.str p)
    ∧ (decimalInteger p = none →
        extractPortFromExtensionConfig name cfg = IntOrString.str p) := by
  have hres : extractPortFromExtensionConfig name cfg = intstrParse p := by
    rw [extractPort_eq_location, hloc]
    exact portOfEndpoint_one_colon e h p he hh hp
  refine ⟨hres, ?_, ?_, ?_⟩
  · intro i hi hlo hhi
    rw [hres]
    simp only [intstrParse, hi, if_pos (And.intro hlo hhi)]
  · intro i hi hout
    rw [hres]
    simp only [intstrParse, hi, if_neg hout]
  · intro hnone
    rw [hres]
    simp only [intstrParse, hnone]

/-- C12 as amended, at `0.0.0.0:8080` under `health_check`, at `0.0.0.0:9090`
under `healthcheckv2`, at the named port of `0.0.0.0:metrics`, and at the
decimal integer 2147483648, which is outside the range and stays a name. -/
theorem C12_port_of_host_port_witness :
    extractPortFromExtensionConfig "health_check" sampleV1Cfg = IntOrString.int 8080
    ∧ extractPortFromExtensionConfig "healthcheckv2" sampleV2Cfg = IntOrString.int 9090
    ∧ extractPortFromExtensionConfig "health_check"
        (sampleV1Endpoint (Value.str "0.0.0.0:metrics")) = IntOrString.str "metrics"
    ∧ extractPortFromExtensionConfig "health_check"
        (sampleV1Endpoint (Value.str "0.0.0.0:2147483648"))
      = IntOrString.str "2147483648" :=
  ⟨(C12_port_of_host_port "health_check" sampleV1Cfg "0.0.0.0:8080" "0.0.0.0" "8080"
      rfl rfl (by decide) (by decide)).2.1 8080 rfl (by norm_num) (by norm_num),
   (C12_port_of_host_port "healthcheckv2" sampleV2Cfg "0.0.0.0:9090" "0.0.0.0" "9090"
      rfl rfl (by decide) (by decide)).2.1 9090 rfl (by norm_num) (by norm_num),
   (C12_port_of_host_port "health_check" (sampleV1Endpoint (Value.str "0.0.0.0:metrics"))
      "0.0.0.0:metrics" "0.0.0.0" "metrics" rfl rfl (by decide) (by decide)).2.2.2 rfl,
   (C12_port_of_host_port "health_check"
      (sampleV1Endpoint (Value.str "0.0.0.0:2147483648"))
      "0.0.0.0:2147483648" "0.0.0.0" "2147483648" rfl rfl (by decide) (by decide)).2.2.1
      2147483648 rfl (by norm_num)⟩

/-- C12 as stated fails: under `health_check`, the endpoint
`0.0.0.0:99999999999999999999` has exactly one colon and its port segment is a
decimal integer, and the extracted port is the named port
`99999999999999999999`, not a numeric port. -/
theorem C12_decimal_integer_named_port :
    endpointLocation "health_check"
        (sampleV1Endpoint (Value.str "0.0.0.0:99999999999999999999"))
      = some (Value.str "0.0.0.0:99999999999999999999")
    ∧ "0.0.0.0:99999999999999999999".data
      = "0.0.0.0".data ++ ':' :: "99999999999999999999".data
    ∧ ':' ∉ "0.0.0.0".data ∧ ':' ∉ "99999999999999999999".data
    ∧ decimalInteger "99999999999999999999" = some 99999999999999999999
    ∧ extractPortFromExtensionConfig "health_check"
        (sampleV1Endpoint (Value.str "0.0.0.0:99999999999999999999"))
      = IntOrString.str "99999999999999999999"
    ∧ ∀ v : Int, extractPortFromExtensionConfig "health_check"
        (sampleV1Endpoint (Value.str "0.0.0.0:99999999999999999999"))
      ≠ IntOrString.int v :=
  ⟨rfl, rfl, by decide, by decide, rfl, rfl, fun _ hv => by
    have hs : extractPortFromExtensionConfig "health_check"
        (sampleV1Endpoint (Value.str "0.0.0.0:99999999999999999999"))
      = IntOrString.str "99999999999999999999" := rfl
    rw [hs] at hv
    cases hv⟩

/-- C13: when the endpoint location of the variant holds a string whose number
of colons is not one (none, or two or more), the extracted port is numeric
13133, and the extracted path is that of every configuration that differs from
this one only in the endpoint value. -/
theorem C13_bad_endpoint (name : String) (cfg : Mapping) (e : String)
    (hloc : endpointLocation name cfg = some (Value.str e))
    (hcount : e.data.count ':' ≠ 1) :
    extractPortFromExtensionConfig name cfg = IntOrString.int 13133
    ∧ ∀ other : Mapping,
        ((hasPrefix name "healthcheckv2" = false ∧
            ∀ k, k ≠ Key.str "endpoint" → lookup k other = lookup k cfg)
          ∨ (hasPrefix name "healthcheckv2" = true ∧
            ∃ http otherHttp,
              lookup (Key.str "http") cfg = some (Value.map http) ∧
              lookup (Key.str "http") other = some (Value.map otherHttp) ∧
              ∀ k, k ≠ Key.str "endpoint" → lookup k otherHttp = lookup k http)) →
        extractPathFromExtensionConfig name other
          = extractPathFromExtensionConfig name cfg := by
  constructor
  · rw [extractPort_eq_location, hloc]
    exact portOfEndpoint_count_ne_one e hcount
  · intro other hother
    rw [extractPath_eq_location, extractPath_eq_location]
    rcases hother with ⟨hname, hsame⟩ | ⟨hname, http, otherHttp, h1, h2, hsame⟩
    · simp only [pathLocation, hname, hsame (Key.str "path") (by decide),
        Bool.false_eq_true, if_false]
    · simp only [pathLocation, hname, if_true, h1, h2,
        hsame (Key.str "status") (by decide)]

/-- C13 at the endpoint `badformat` under `health_check` and at `a:b:c` under
`healthcheckv2`: the port is 13133 and the path is that of the configuration
with a well-formed endpoint. -/
theorem C13_bad_endpoint_witness :
    extractPortFromExtensionConfig "health_check" (sampleV1Endpoint (Value.str "badformat"))
      = IntOrString.int 13133
    ∧ extractPathFromExtensionConfig "health_check" sampleV1Cfg
      = extractPathFromExtensionConfig "health_check"
          (sampleV1Endpoint (Value.str "badformat"))
    ∧ extractPortFromExtensionConfig "healthcheckv2" (sampleV2Endpoint (Value.str "a:b:c"))
      = IntOrString.int 13133
    ∧ extractPathFromExtensionConfig "healthcheckv2" sampleV2Cfg
      = extractPathFromExtensionConfig "healthcheckv2"
          (sampleV2Endpoint (Value.str "a:b:c")) :=
  ⟨(C13_bad_endpoint "health_check" (sampleV1Endpoint (Value.str "badformat")) "badformat"
      rfl (by decide)).1,
   (C13_bad_endpoint "health_check" (sampleV1Endpoint (Value.str "badformat")) "badformat"
      rfl (by decide)).2 sampleV1Cfg
      (Or.inl ⟨rfl, by
        intro k hk
        simp only [sampleV1Cfg, sampleV1Endpoint, lookup, if_neg (Ne.symm hk)]⟩),
   (C13_bad_endpoint "healthcheckv2" (sampleV2Endpoint (Value.str "a:b:c")) "a:b:c"
      rfl (by decide)).1,
   (C13_bad_endpoint "healthcheckv2" (sampleV2Endpoint (Value.str "a:b:c")) "a:b:c"
      rfl (by decide)).2 sampleV2Cfg
      (Or.inr ⟨rfl, _, _, rfl, rfl, by
        intro k hk
        simp only [lookup, if_neg (Ne.symm hk)]⟩)⟩

/-- C14: `extractPortFromExtensionConfig` returns numeric 13133 whenever the
endpoint cannot be read as a string: for a v1 name when `endpoint` is absent or
not a string; for a `healthcheckv2` name when `http` is absent or not a
mapping, or `http.endpoint` is absent or not a string. -/
theorem C14_default_port (name : String) (cfg : Mapping)
    (hbad :
      (hasPrefix name "healthcheckv2" = false ∧
        (lookup (Key.str "endpoint") cfg = none ∨
          ∃ v, lookup (Key.str "endpoint") cfg = some v ∧ ∀ t, v ≠ Value.str t))
      ∨ (hasPrefix name "healthcheckv2" = true ∧
        (lookup (Key.str "http") cfg = none ∨
          (∃ v, lookup (Key.str "http") cfg = some v ∧ ∀ kvs, v ≠ Value.map kvs) ∨
          ∃ http, lookup (Key.str "http") cfg = some (Value.map http) ∧
            (lookup (Key.str "endpoint") http = none ∨
              ∃ v, lookup (Key.str "endpoint") http = some v ∧ ∀ t, v ≠ Value.str t)))) :
    extractPortFromExtensionConfig name cfg = IntOrString.int 13133 := by
  rw [extractPort_eq_location]
  rcases hbad with ⟨hname, h | ⟨v, hv, hns⟩⟩ | ⟨hname, h | ⟨v, hv, hnm⟩ | ⟨http, hh, h | ⟨v, hv, hns⟩⟩⟩
  · simp only [endpointLocation, hname, h]
    rfl
  · simp only [endpointLocation, hname, hv]
    exact portOfEndpoint_not_string v hns
  · simp only [endpointLocation, hname, if_true, h]
  · simp only [endpointLocation, hname, if_true, hv]
    cases v with
    | map kvs => exact absurd rfl (hnm kvs)
    | _ => rfl
  · simp only [endpointLocation, hname, if_true, hh, h]
  · simp only [endpointLocation, hname, if_true, hh, hv]
    exact portOfEndpoint_not_string v hns

/-- C14 at a v1 configuration without `endpoint` and with a numeric one, and at
v2 configurations without `http`, with a string `http`, with an `http` without
`endpoint` and with a numeric `http.endpoint`. -/
theorem C14_default_port_witness :
    extractPortFromExtensionConfig "health_check" [(Key.str "path", Value.str "/live")]
      = IntOrString.int 13133
    ∧ extractPortFromExtensionConfig "health_check" (sampleV1Endpoint (Value.int 8080))
      = IntOrString.int 13133
    ∧ extractPortFromExtensionConfig "healthcheckv2" sampleV1Cfg = IntOrString.int 13133
    ∧ extractPortFromExtensionConfig "healthcheckv2"
        [(Key.str "http", Value.str "0.0.0.0:9090")] = IntOrString.int 13133
    ∧ extractPortFromExtensionConfig "healthcheckv2" [(Key.str "http", Value.map [])]
      = IntOrString.int 13133
    ∧ extractPortFromExtensionConfig "healthcheckv2" (sampleV2Endpoint (Value.int 9090))
      = IntOrString.int 13133 :=
  ⟨C14_default_port _ _ (Or.inl ⟨rfl, Or.inl rfl⟩),
   C14_default_port _ _ (Or.inl ⟨rfl, Or.inr ⟨Value.int 8080, rfl, fun _ h => by cases h⟩⟩),
   C14_default_port _ _ (Or.inr ⟨rfl, Or.inl rfl⟩),
   C14_default_port _ _ (Or.inr ⟨rfl, Or.inr (Or.inl
      ⟨Value.str "0.0.0.0:9090", rfl, fun _ h => by cases h⟩)⟩),
   C14_default_port _ _ (Or.inr ⟨rfl, Or.inr (Or.inr ⟨[], rfl, Or.inl rfl⟩)⟩),
   C14_default_port _ _ (Or.inr ⟨rfl, Or.inr (Or.inr
      ⟨_, rfl, Or.inr ⟨Value.int 9090, rfl, fun _ h => by cases h⟩⟩)⟩)⟩

/-- C15: for a raw configuration value that is not a mapping, and for the empty
mapping, `extractProbeConfigurationFromExtension` returns the defaults of the
variant: path `/health/status` and numeric port 13133 when the name starts with
`healthcheckv2`, path `/` and numeric port 13133 otherwise. -/
theorem C15_variant_defaults (name : String) (ext : Value)
    (hext : (∀ kvs, ext ≠ Value.map kvs) ∨ ext = Value.map []) :
    (hasPrefix name "healthcheckv2" = true →
      extractProbeConfigurationFromExtension name ext
        = { path := "/health/status", port := IntOrString.int 13133 })
    ∧ (hasPrefix name "healthcheckv2" = false →
      extractProbeConfigurationFromExtension name ext
        = { path := "/", port := IntOrString.int 13133 }) := by
  have hdef : extractProbeConfigurationFromExtension name ext = variantDefaults name := by
    rcases hext with hnm | hempty
    · have hnone : asMap ext = none := by
        cases ext with
        | map kvs => exact absurd rfl (hnm kvs)
        | _ => rfl
      simp only [extractProbeConfigurationFromExtension, hnone, defaultProbeConfiguration,
        variantDefaults]
      by_cases hname : hasPrefix name "healthcheckv2" = true
      · simp only [hname, if_true]; rfl
      · simp only [hname]; rfl
    · subst hempty
      simp only [extractProbeConfigurationFromExtension, asMap, extractPath_eq_location,
        extractPort_eq_location, pathLocation, endpointLocation, variantDefaults, lookup]
      by_cases hname : hasPrefix name "healthcheckv2" = true
      · simp only [hname, if_true]
      · simp only [hname, Bool.false_eq_true, if_false]
  constructor
  · intro hname
    rw [hdef]
    simp only [variantDefaults, hname, if_true]
  · intro hname
    rw [hdef]
    simp only [variantDefaults, hname]
    rfl

/-- C15 at a null, a string, a numeric and a sequence value and at the empty
mapping, under `health_check` and `healthcheckv2`. -/
theorem C15_variant_defaults_witness :
    extractProbeConfigurationFromExtension "health_check" Value.null
      = { path := "/", port := IntOrString.int 13133 }
    ∧ extractProbeConfigurationFromExtension "health_check" (Value.str "0.0.0.0:8080")
      = { path := "/", port := IntOrString.int 13133 }
    ∧ extractProbeConfigurationFromExtension "health_check" (Value.map [])
      = { path := "/", port := IntOrString.int 13133 }
    ∧ extractProbeConfigurationFromExtension "healthcheckv2" (Value.int 1)
      = { path := "/health/status", port := IntOrString.int 13133 }
    ∧ extractProbeConfigurationFromExtension "healthcheckv2" (Value.seq [])
      = { path := "/health/status", port := IntOrString.int 13133 }
    ∧ extractProbeConfigurationFromExtension "healthcheckv2" (Value.map [])
      = { path := "/health/status", port := IntOrString.int 13133 } :=
  ⟨(C15_variant_defaults "health_check" Value.null
      (Or.inl (fun _ h => by cases h))).2 rfl,
   (C15_variant_defaults "health_check" (Value.str "0.0.0.0:8080")
      (Or.inl (fun _ h => by cases h))).2 rfl,
   (C15_variant_defaults "health_check" (Value.map []) (Or.inr rfl)).2 rfl,
   (C15_variant_defaults "healthcheckv2" (Value.int 1)
      (Or.inl (fun _ h => by cases h))).1 rfl,
   (C15_variant_defaults "healthcheckv2" (Value.seq [])
      (Or.inl (fun _ h => by cases h))).1 rfl,
   (C15_variant_defaults "healthcheckv2" (Value.map []) (Or.inr rfl)).1 rfl⟩

/-! ## Selection and extraction together: claims C16 to C20 -/

/-- The first candidate of the sequence that is defined in the extensions
mapping decides the result, whatever its body is. -/
theorem ConfigToContainerProbe_first_defined (config service m : Mapping)
    (pre post : List Value) (n : String) (v : Value)
    (hsvc : lookup (Key.str "service") config = some (Value.map service))
    (hseq : lookup (Key.str "extensions") service
      = some (Value.seq (pre ++ Value.str n :: post)))
    (hext : lookup (Key.str "extensions") config = some (Value.map m))
    (hn : isHealthCheckName n = true)
    (hv : lookup (Key.str n) m = some v)
    (hpre : ∀ k, Value.str k ∈ pre → isHealthCheckName k = true →
      lookup (Key.str k) m = none) :
    ConfigToContainerProbe config
      = Except.ok (httpGetProbe (extractProbeConfigurationFromExtension n v)) := by
  have hne : (healthCheckServiceExtensions (pre ++ Value.str n :: post)).length ≠ 0 := by
    rw [healthCheckServiceExtensions_append, healthCheckServiceExtensions_cons]
    simp [candidateOf, asString, hn]
  rw [ConfigToContainerProbe_of_sequence config service _ hsvc hseq, if_neg hne, hext]
  simp only [asMap]
  rw [healthCheckServiceExtensions_append, probeOfFirstDefined_skip,
    healthCheckServiceExtensions_cons]
  · simp only [candidateOf, asString, hn, if_true, List.singleton_append,
      probeOfFirstDefined, hv, createProbeFromExtension, httpGetProbe]
  · intro k hk
    have := (mem_healthCheckServiceExtensions pre k).mp hk
    exact hpre k this.1 this.2

theorem extractPath_of_unreadable (name : String) (cfg : Mapping)
    (h : ∀ t, pathLocation name cfg ≠ some (Value.str t)) :
    extractPathFromExtensionConfig name cfg = (variantDefaults name).path := by
  rw [extractPath_eq_location]
  cases hl : pathLocation name cfg with
  | none => rfl
  | some q =>
    cases q with
    | str t => exact absurd hl (h t)
    | _ => rfl

theorem extractPort_of_unreadable (name : String) (cfg : Mapping)
    (h : ∀ t, endpointLocation name cfg ≠ some (Value.str t)) :
    extractPortFromExtensionConfig name cfg = IntOrString.int 13133 := by
  rw [extractPort_eq_location]
  cases hl : endpointLocation name cfg with
  | none => rfl
  | some q =>
    exact portOfEndpoint_not_string q (fun t ht => h t (by rw [hl, ht]))

theorem extractProbe_of_not_map (name : String) (v : Value) (hv : ∀ kvs, v ≠ Value.map kvs) :
    extractProbeConfigurationFromExtension name v = variantDefaults name := by
  have hnone : asMap v = none := by
    cases v with
    | map kvs => exact absurd rfl (hv kvs)
    | _ => rfl
  simp only [extractProbeConfigurationFromExtension, hnone, defaultProbeConfiguration,
    variantDefaults]
  by_cases hname : hasPrefix name "healthcheckv2" = true
  · simp only [hname, if_true]; rfl
  · simp only [hname]; rfl

/-- C16: with `n` the earliest candidate of `service.extensions` that is a key
of the top-level `extensions` mapping `m`, and `v` its body, the result is a
success that `n` and `v` alone decide: the probe of
`extractProbeConfigurationFromExtension n v`. A body that is not a mapping
gives the defaults of the variant of `n`; in a body that is a mapping, a path
that cannot be read gives the default path and an endpoint that cannot be read
gives the port 13133. Every document with the same sequence whose `extensions`
mapping agrees with `m` on `n` and on the candidates before it, the bodies of the
later candidates changed or removed at will, has the same result. -/
theorem C16_earliest_defined_decides (config service m : Mapping) (pre post : List Value)
    (n : String) (v : Value)
    (hsvc : lookup (Key.str "service") config = some (Value.map service))
    (hseq : lookup (Key.str "extensions") service
      = some (Value.seq (pre ++ Value.str n :: post)))
    (hext : lookup (Key.str "extensions") config = some (Value.map m))
    (hn : hasPrefix n "health_check" = true ∨ hasPrefix n "healthcheckv2" = true)
    (hv : lookup (Key.str n) m = some v)
    (hpre : ∀ k, Value.str k ∈ pre →
      (hasPrefix k "health_check" = true ∨ hasPrefix k "healthcheckv2" = true) →
      lookup (Key.str k) m = none) :
    ConfigToContainerProbe config
      = Except.ok (httpGetProbe (extractProbeConfigurationFromExtension n v))
    ∧ ((∀ kvs, v ≠ Value.map kvs) →
        ConfigToContainerProbe config = Except.ok (httpGetProbe (variantDefaults n)))
    ∧ (∀ cfg, v = Value.map cfg → (∀ t, pathLocation n cfg ≠ some (Value.str t)) →
        ∃ port, ConfigToContainerProbe config
          = Except.ok (httpGetProbe { path := (variantDefaults n).path, port := port }))
    ∧ (∀ cfg, v = Value.map cfg → (∀ t, endpointLocation n cfg ≠ some (Value.str t)) →
        ∃ path, ConfigToContainerProbe config
          = Except.ok (httpGetProbe { path := path, port := IntOrString.int 13133 }))
    ∧ (∀ other otherService later : Mapping,
        lookup (Key.str "service") other = some (Value.map otherService) →
        lookup (Key.str "extensions") otherService
          = some (Value.seq (pre ++ Value.str n :: post)) →
        lookup (Key.str "extensions") other = some (Value.map later) →
        (∀ k, (k = n ∨ (Value.str k ∈ pre ∧
            (hasPrefix k "health_check" = true ∨ hasPrefix k "healthcheckv2" = true))) →
          lookup (Key.str k) later = lookup (Key.str k) m) →
        ConfigToContainerProbe other = ConfigToContainerProbe config) := by
  have hres := ConfigToContainerProbe_first_defined config service m pre post n v hsvc hseq
    hext ((isHealthCheckName_iff n).mpr hn) hv
    (fun k hk hc => hpre k hk ((isHealthCheckName_iff k).mp hc))
  refine ⟨hres, ?_, ?_, ?_, ?_⟩
  · intro hnm
    rw [hres, extractProbe_of_not_map n v hnm]
  · intro cfg hcfg hpath
    subst hcfg
    refine ⟨extractPortFromExtensionConfig n cfg, ?_⟩
    rw [hres]
    simp only [extractProbeConfigurationFromExtension, asMap,
      extractPath_of_unreadable n cfg hpath]
  · intro cfg hcfg hport
    subst hcfg
    refine ⟨extractPathFromExtensionConfig n cfg, ?_⟩
    rw [hres]
    simp only [extractProbeConfigurationFromExtension, asMap,
      extractPort_of_unreadable n cfg hport]
  · intro other otherService later ho hoseq hoext hagree
    rw [hres]
    refine ConfigToContainerProbe_first_defined other otherService later pre post n v ho hoseq
      hoext ((isHealthCheckName_iff n).mpr hn) ?_ ?_
    · rw [hagree n (Or.inl rfl)]; exact hv
    · intro k hk hc
      have hc' := (isHealthCheckName_iff k).mp hc
      rw [hagree k (Or.inr ⟨hk, hc'⟩)]
      exact hpre k hk hc'

/-- C16 at the document listing `health_check` then `healthcheckv2`, both
defined, the body of the first being a string: the result is the v1 defaults,
and it stays so when the body of the second is replaced by a null value. -/
theorem C16_earliest_defined_decides_witness :
    ConfigToContainerProbe
        (sampleTwoDefinedDoc (Value.str "0.0.0.0:8080") (Value.map sampleV2Cfg))
      = Except.ok (httpGetProbe { path := "/", port := IntOrString.int 13133 })
    ∧ ConfigToContainerProbe (sampleTwoDefinedDoc (Value.str "0.0.0.0:8080") Value.null)
      = ConfigToContainerProbe
          (sampleTwoDefinedDoc (Value.str "0.0.0.0:8080") (Value.map sampleV2Cfg)) :=
  ⟨(C16_earliest_defined_decides
      (sampleTwoDefinedDoc (Value.str "0.0.0.0:8080") (Value.map sampleV2Cfg))
      [(Key.str "extensions",
        Value.seq [Value.str "health_check", Value.str "healthcheckv2"])]
      [(Key.str "healthcheckv2", Value.map sampleV2Cfg),
       (Key.str "health_check", Value.str "0.0.0.0:8080")]
      [] [Value.str "healthcheckv2"] "health_check" (Value.str "0.0.0.0:8080")
      rfl rfl rfl (Or.inl rfl) rfl (fun _ hk _ => by cases hk)).2.1
      (fun _ h => by cases h),
   (C16_earliest_defined_decides
      (sampleTwoDefinedDoc (Value.str "0.0.0.0:8080") (Value.map sampleV2Cfg))
      [(Key.str "extensions",
        Value.seq [Value.str "health_check", Value.str "healthcheckv2"])]
      [(Key.str "healthcheckv2", Value.map sampleV2Cfg),
       (Key.str "health_check", Value.str "0.0.0.0:8080")]
      [] [Value.str "healthcheckv2"] "health_check" (Value.str "0.0.0.0:8080")
      rfl rfl rfl (Or.inl rfl) rfl (fun _ hk _ => by cases hk)).2.2.2.2
      (sampleTwoDefinedDoc (Value.str "0.0.0.0:8080") Value.null)
      [(Key.str "extensions",
        Value.seq [Value.str "health_check", Value.str "healthcheckv2"])]
      [(Key.str "healthcheckv2", Value.null),
       (Key.str "health_check", Value.str "0.0.0.0:8080")]
      rfl rfl rfl
      (by
        rintro k (hk | ⟨hk, _⟩)
        · subst hk; rfl
        · cases hk)⟩

/-- C17: two documents in which `service` is a mapping, that agree on the
`extensions` entry of `service` and on the top-level `extensions` entry, have
the same result, probe or error, whatever their other keys hold; in particular
the result on one document is the same at every invocation. -/
theorem C17_depends_on_two_entries (config other service otherService : Mapping)
    (hsvc : lookup (Key.str "service") config = some (Value.map service))
    (ho : lookup (Key.str "service") other = some (Value.map otherService))
    (hseq : lookup (Key.str "extensions") otherService
      = lookup (Key.str "extensions") service)
    (hext : lookup (Key.str "extensions") other = lookup (Key.str "extensions") config) :
    ConfigToContainerProbe other = ConfigToContainerProbe config
    ∧ ∀ again : Mapping, again = config →
        ConfigToContainerProbe again = ConfigToContainerProbe config := by
  constructor
  · simp only [ConfigToContainerProbe, hsvc, ho, asMap, hseq, hext]
  · intro again h
    rw [h]

/-- C17 at the document listing `health_check/a` then `health_check/b` and at
one with the same two entries, further keys at the top level and in `service`,
and the keys in another order. -/
theorem C17_depends_on_two_entries_witness :
    ConfigToContainerProbe
        [(Key.str "receivers", Value.map []),
         (Key.str "extensions",
            Value.map [(Key.str "health_check/b", Value.map sampleV1Cfg)]),
         (Key.str "service",
            Value.map [(Key.str "pipelines", Value.null),
              (Key.str "extensions",
                Value.seq [Value.str "health_check/a", Value.str "health_check/b"])])]
      = ConfigToContainerProbe sampleSkipDoc :=
  (C17_depends_on_two_entries sampleSkipDoc
    [(Key.str "receivers", Value.map []),
     (Key.str "extensions",
        Value.map [(Key.str "health_check/b", Value.map sampleV1Cfg)]),
     (Key.str "service",
        Value.map [(Key.str "pipelines", Value.null),
          (Key.str "extensions",
            Value.seq [Value.str "health_check/a", Value.str "health_check/b"])])]
    [(Key.str "extensions",
        Value.seq [Value.str "health_check/a", Value.str "health_check/b"])]
    [(Key.str "pipelines", Value.null),
     (Key.str "extensions",
        Value.seq [Value.str "health_check/a", Value.str "health_check/b"])]
    rfl rfl rfl rfl).1

/-- C18: the prefix of the name alone fixes the schema. For a name that starts
with `healthcheckv2` the extracted pair depends only on the `http` entry of the
configuration, and the v1-shaped configuration with `path` and `endpoint`
gives `/health/status` and 13133; for every other name the pair depends only on
the `path` and `endpoint` entries, and the v2-shaped configuration with `http`
gives `/` and 13133. -/
theorem C18_variant_by_name (name : String) (cfg other : Mapping) :
    (hasPrefix name "healthcheckv2" = true →
      (lookup (Key.str "http") other = lookup (Key.str "http") cfg →
        extractProbeConfigurationFromExtension name (Value.map other)
          = extractProbeConfigurationFromExtension name (Value.map cfg))
      ∧ extractProbeConfigurationFromExtension name (Value.map sampleV1Cfg)
          = { path := "/health/status", port := IntOrString.int 13133 })
    ∧ (hasPrefix name "healthcheckv2" = false →
      (lookup (Key.str "path") other = lookup (Key.str "path") cfg →
        lookup (Key.str "endpoint") other = lookup (Key.str "endpoint") cfg →
        extractProbeConfigurationFromExtension name (Value.map other)
          = extractProbeConfigurationFromExtension name (Value.map cfg))
      ∧ extractProbeConfigurationFromExtension name (Value.map sampleV2Cfg)
          = { path := "/", port := IntOrString.int 13133 }) := by
  constructor
  · intro hname
    constructor
    · intro hhttp
      simp only [extractProbeConfigurationFromExtension, asMap, extractPath_eq_location,
        extractPort_eq_location, pathLocation, endpointLocation, hname, if_true, hhttp]
    · have hno : lookup (Key.str "http") sampleV1Cfg = none := rfl
      simp only [extractProbeConfigurationFromExtension, asMap, extractPath_eq_location,
        extractPort_eq_location, pathLocation, endpointLocation, variantDefaults, hname,
        if_true, hno]
  · intro hname
    constructor
    · intro hpath hep
      simp only [extractProbeConfigurationFromExtension, asMap, extractPath_eq_location,
        extractPort_eq_location, pathLocation, endpointLocation, hname, hpath, hep,
        Bool.false_eq_true, if_false]
    · have hnp : lookup (Key.str "path") sampleV2Cfg = none := rfl
      have hne : lookup (Key.str "endpoint") sampleV2Cfg = none := rfl
      simp only [extractProbeConfigurationFromExtension, asMap, extractPath_eq_location,
        extractPort_eq_location, pathLocation, endpointLocation, variantDefaults, hname,
        Bool.false_eq_true, if_false, hnp, hne]

/-- C18 at the names `healthcheckv2` and `health_check`, each on the
configuration of the other variant, and on two configurations that differ only
in the entries the variant does not read. -/
theorem C18_variant_by_name_witness :
    extractProbeConfigurationFromExtension "healthcheckv2" (Value.map sampleV1Cfg)
      = { path := "/health/status", port := IntOrString.int 13133 }
    ∧ extractProbeConfigurationFromExtension "health_check" (Value.map sampleV2Cfg)
      = { path := "/", port := IntOrString.int 13133 }
    ∧ extractProbeConfigurationFromExtension "healthcheckv2"
        (Value.map (sampleV1Cfg ++ sampleV2Cfg))
      = extractProbeConfigurationFromExtension "healthcheckv2" (Value.map sampleV2Cfg)
    ∧ extractProbeConfigurationFromExtension "health_check"
        (Value.map (sampleV2Cfg ++ sampleV1Cfg))
      = extractProbeConfigurationFromExtension "health_check" (Value.map sampleV1Cfg) :=
  ⟨((C18_variant_by_name "healthcheckv2" [] []).1 rfl).2,
   ((C18_variant_by_name "health_check" [] []).2 rfl).2,
   ((C18_variant_by_name "healthcheckv2" sampleV2Cfg (sampleV1Cfg ++ sampleV2Cfg)).1 rfl).1
      rfl,
   ((C18_variant_by_name "health_check" sampleV1Cfg (sampleV2Cfg ++ sampleV1Cfg)).2 rfl).1
      rfl rfl⟩

/-- C19: the range of a numeric port is not checked. The documents whose
candidate `health_check` has the endpoint `0.0.0.0:0`, `0.0.0.0:70000` and
`0.0.0.0:-1` succeed with the numeric ports 0, 70000 and -1, so some document
succeeds with a numeric port outside 1..65535. -/
theorem C19_port_range_not_validated :
    ConfigToContainerProbe (sampleEndpointDoc "0.0.0.0:0")
      = Except.ok (httpGetProbe { path := "/", port := IntOrString.int 0 })
    ∧ ConfigToContainerProbe (sampleEndpointDoc "0.0.0.0:70000")
      = Except.ok (httpGetProbe { path := "/", port := IntOrString.int 70000 })
    ∧ ConfigToContainerProbe (sampleEndpointDoc "0.0.0.0:-1")
      = Except.ok (httpGetProbe { path := "/", port := IntOrString.int (-1) })
    ∧ ∃ (config : Mapping) (path : String) (v : Int),
        ConfigToContainerProbe config
          = Except.ok (httpGetProbe { path := path, port := IntOrString.int v })
        ∧ ¬ (1 ≤ v ∧ v ≤ 65535) :=
  ⟨rfl, rfl, rfl, sampleEndpointDoc "0.0.0.0:70000", "/", 70000, rfl, by decide⟩

/-- C20: when the endpoint location of the variant holds a colon-free host `h`
followed by `:`, `extractPortFromExtensionConfig` returns the named port with
the empty name, not the numeric 13133; and when it holds `:8080`, with an empty
host, it returns the numeric port 8080. -/
theorem C20_empty_port_segment (name : String) (cfg : Mapping) (h : String)
    (hh : ':' ∉ h.data) :
    (endpointLocation name cfg = some (Value.str (h ++ ":")) →
      extractPortFromExtensionConfig name cfg = IntOrString.str ""
      ∧ extractPortFromExtensionConfig name cfg ≠ IntOrString.int 13133)
    ∧ (endpointLocation name cfg = some (Value.str ":8080") →
      extractPortFromExtensionConfig name cfg = IntOrString.int 8080) := by
  constructor
  · intro hloc
    have hres : extractPortFromExtensionConfig name cfg = IntOrString.str "" := by
      rw [extractPort_eq_location, hloc]
      exact portOfEndpoint_one_colon (h ++ ":") h "" (by rw [String.data_append]) hh
        (by simp)
    refine ⟨hres, ?_⟩
    rw [hres]
    intro hc
    cases hc
  · intro hloc
    rw [extractPort_eq_location, hloc]
    rfl

/-- C20 at the endpoint `localhost:` under `health_check` and under
`healthcheckv2`, and at `:8080` under `health_check`. -/
theorem C20_empty_port_segment_witness :
    extractPortFromExtensionConfig "health_check" (sampleV1Endpoint (Value.str "localhost:"))
      = IntOrString.str ""
    ∧ extractPortFromExtensionConfig "healthcheckv2"
        (sampleV2Endpoint (Value.str "localhost:")) = IntOrString.str ""
    ∧ extractPortFromExtensionConfig "health_check" (sampleV1Endpoint (Value.str ":8080"))
      = IntOrString.int 8080 :=
  ⟨((C20_empty_port_segment "health_check" (sampleV1Endpoint (Value.str "localhost:"))
      "localhost" (by decide)).1 rfl).1,
   ((C20_empty_port_segment "healthcheckv2" (sampleV2Endpoint (Value.str "localhost:"))
      "localhost" (by decide)).1 rfl).1,
   (C20_empty_port_segment "health_check" (sampleV1Endpoint (Value.str ":8080"))
      "" (by decide)).2 rfl⟩

end Adapters
